import Mathlib

/-!
Shallow embedding of `storyscript/story.py` (class `Story`): the comment
stripper `clean_source`, the read/parse/compile/process orchestration, the
line-indexing helpers and the import resolver `modules`, together with
theorems settling the specification claims about them.
-/

namespace Storyscript

/-! ## CommentStripper: `Story.clean_source`

The source is `re.sub(r'(?<=###)\s(.*|\\n)+(?=\s###)|#(.*)', '', source)`.
`re.sub` scans positions left to right and removes every leftmost
non-overlapping match.  At a position `i` the pattern tries the first
alternative, then the second:

* alternative 1 `(?<=###)\s(.*|\\n)+(?=\s###)` matches when the three
  characters before `i` (in the original string) are `###`; it consumes one
  whitespace character and then `(.*|\\n)+`.  Since `.` never matches a
  newline and the arm `\\n` matches the two literal characters backslash-n
  (which `.*` also covers), the group consumes characters of a single line;
  the repetition stops at the first newline after position `i+1` or at the
  end of input.  Greedy backtracking ends the match at the largest position
  `k` in that range whose lookahead `(?=\s###)` succeeds: one whitespace
  character immediately followed by `###`.  The lookahead consumes nothing.
* alternative 2 `#(.*)` matches a `#` and the rest of its line, the newline
  excluded.

The scan below carries `ctx`, the reversed list of all characters before the
current position (matched or kept), so the lookbehind reads the original
string exactly as Python does.  The recursion is driven by a fuel argument
equal to the length of the remaining input; every step consumes at least one
character, so the fuel never runs out when initialised that way. -/

/-- Python's `\s` character class, on the ASCII range: space, tab, newline,
carriage return, vertical tab, form feed. -/
def isSpaceC (c : Char) : Bool :=
  c == ' ' || c == '\t' || c == '\n' || c == '\r' || c == '\x0b' || c == '\x0c'

/-- Does the lookahead `(?=\s###)` succeed at the head of `l`? -/
def lookaheadOK : List Char → Bool
  | c :: '#' :: '#' :: '#' :: _ => isSpaceC c
  | _ => false

/-- Largest `j ≤ m` such that the lookahead succeeds at `t.drop j`, if any:
the greedy end of the `(.*|\\n)+` group, measured from the start of `t`. -/
def findMaxInterior (t : List Char) : Nat → Option Nat
  | 0 => if lookaheadOK t then some 0 else none
  | m + 1 => if lookaheadOK (t.drop (m + 1)) then some (m + 1)
             else findMaxInterior t m

/-- Characters other than the newline: what `.` (and `takeWhile` below,
delimiting a line) ranges over. -/
def notNL (c : Char) : Bool := c != '\n'

/-- One pass of `re.sub` for the comment expression, keeping unmatched
characters: `ctx` is the reversed prefix already scanned, `rest` the
remaining input, and the fuel bounds the number of steps. -/
def scanGo : Nat → List Char → List Char → List Char
  | 0, _, _ => []
  | fuel + 1, ctx, rest =>
    match rest with
    | [] => []
    | c :: t =>
      match (if ctx.take 3 == ['#', '#', '#'] && isSpaceC c then
               findMaxInterior t (t.takeWhile notNL).length
             else none) with
      | some m => scanGo fuel ((c :: t.take m).reverse ++ ctx) (t.drop m)
      | none =>
        if c == '#' then
          scanGo fuel ((c :: t.takeWhile notNL).reverse ++ ctx)
            (t.dropWhile notNL)
        else
          c :: scanGo fuel (c :: ctx) t

/-- The substitution scan started with enough fuel for its input. -/
def scan (ctx rest : List Char) : List Char :=
  scanGo rest.length ctx rest

/-- Embeds `Story.clean_source`:
`re.sub(r'(?<=###)\s(.*|\\n)+(?=\s###)|#(.*)', '', source)`. -/
def Story.clean_source (source : String) : String :=
  String.mk (scan [] source.data)

example : Story.clean_source "foo ### hidden ### bar" = "foo " := by decide
example : Story.clean_source "foo # trailing comment" = "foo " := by decide
example : Story.clean_source "foo ###\nhidden\n### bar" = "foo \n" := by decide
example : Story.clean_source "x###\na#b \n###d" = "x\n" := by decide
example : Story.clean_source "a ####\nb ###" = "a  " := by decide
example : Story.clean_source "no comments here" = "no comments here" := by decide
example : Story.clean_source "a###\nb ###c\n### d" = "a\n" := by decide
example : Story.clean_source "keep me\n###\nblock\n###\nafter"
    = "keep me\n\n\nafter" := by decide
example : Story.clean_source "a###\nbc### ###" = "a " := by decide

/-! Idempotence of the stripper.  Every `#` of the input is either inside
some removed match or starts a line-comment match itself (a match via the
first alternative begins with a whitespace character, never `#`), so the
output of the scan contains no `#`; and on a `#`-free input neither
alternative can match, so the scan is the identity. -/

/-- A successful lookahead sees a `#` among its first four characters. -/
lemma lookaheadOK_eq_false {l : List Char} (h : '#' ∉ l) :
    lookaheadOK l = false := by
  unfold lookaheadOK
  split
  · rename_i c rest
    exact absurd (by simp) h
  · rfl

/-- On `#`-free text the greedy block-interior search finds nothing. -/
lemma findMaxInterior_eq_none {t : List Char} (h : '#' ∉ t) :
    ∀ m, findMaxInterior t m = none
  | 0 => by simp [findMaxInterior, lookaheadOK_eq_false h]
  | m + 1 => by
    have h' : '#' ∉ t.drop (m + 1) := fun hm => h (List.drop_subset _ _ hm)
    simp [findMaxInterior, lookaheadOK_eq_false h',
      findMaxInterior_eq_none h m]

/-- The stripped text never contains a `#`. -/
lemma hash_not_mem_scanGo :
    ∀ (fuel : Nat) (ctx rest : List Char), '#' ∉ scanGo fuel ctx rest := by
  intro fuel
  induction fuel with
  | zero => intro ctx rest; simp [scanGo]
  | succ fuel ih =>
    intro ctx rest
    cases rest with
    | nil => simp [scanGo]
    | cons c t =>
      simp only [scanGo]
      split
      · exact ih _ _
      · split
        · exact ih _ _
        · rename_i hc
          intro hmem
          rcases List.mem_cons.mp hmem with h1 | h2
          · exact hc (by rw [← h1]; rfl)
          · exact ih _ _ h2

/-- On `#`-free input the scan is the identity (with sufficient fuel). -/
lemma scanGo_of_not_mem :
    ∀ (fuel : Nat) (ctx rest : List Char), rest.length ≤ fuel →
      '#' ∉ rest → scanGo fuel ctx rest = rest := by
  intro fuel
  induction fuel with
  | zero =>
    intro ctx rest hlen _
    have : rest = [] := List.eq_nil_of_length_eq_zero (Nat.le_zero.mp hlen)
    simp [this, scanGo]
  | succ fuel ih =>
    intro ctx rest hlen h
    cases rest with
    | nil => simp [scanGo]
    | cons c t =>
      have hc : (c == '#') = false := by
        apply beq_eq_false_iff_ne.mpr
        intro hcc
        exact h (by simp [hcc])
      have ht : '#' ∉ t := fun hm => h (List.mem_cons_of_mem _ hm)
      have htl : t.length ≤ fuel := by
        simp only [List.length_cons] at hlen; omega
      have hfmi : findMaxInterior t (t.takeWhile notNL).length = none :=
        findMaxInterior_eq_none ht _
      by_cases hcond : (ctx.take 3 == ['#', '#', '#'] && isSpaceC c) = true
      · simp [scanGo, hcond, hfmi, hc, ih _ t htl ht]
      · simp [scanGo, hcond, hc, ih _ t htl ht]

lemma hash_not_mem_scan (ctx rest : List Char) : '#' ∉ scan ctx rest :=
  hash_not_mem_scanGo _ _ _

lemma scan_of_not_mem (ctx : List Char) {rest : List Char}
    (h : '#' ∉ rest) : scan ctx rest = rest :=
  scanGo_of_not_mem _ _ _ le_rfl h

/-- C6: `clean_source` is idempotent: for every input text,
`clean_source (clean_source text) = clean_source text`. -/
theorem clean_source_idempotent (text : String) :
    Story.clean_source (Story.clean_source text) = Story.clean_source text := by
  show String.mk (scan [] (String.mk (scan [] text.data)).data)
      = String.mk (scan [] text.data)
  have hdata : (String.mk (scan [] text.data)).data = scan [] text.data := rfl
  rw [hdata, scan_of_not_mem _ (hash_not_mem_scan _ _)]

/-- C1 counterexample: cleaning `"foo ### hidden ### bar"` does not give
`"foo  bar"`; the line-comment alternative `#(.*)` matches at the opening
`###` first and removes everything up to the end of the line. -/
theorem clean_source_block_counterexample :
    Story.clean_source "foo ### hidden ### bar" ≠ "foo  bar" := by decide

/-- C1 amended: on `"foo ### hidden ### bar"` the cleaner removes everything
from the first `#` to the end of the line, giving `"foo "`; on the
multi-line `"foo ###\nhidden\n### bar"` the interior line, the markers and
the text after the closing marker are all removed, giving `"foo \n"`. -/
theorem clean_source_block_amended :
    Story.clean_source "foo ### hidden ### bar" = "foo "
      ∧ Story.clean_source "foo ###\nhidden\n### bar" = "foo \n" :=
  ⟨by decide, by decide⟩

/-! ## Data model for the orchestrator

`Story.parse` catches exactly `UnexpectedToken` and `UnexpectedInput` from
the Parser adapter; `Story.compile` catches exactly `CompilerError` and
`StorySyntaxError` from the Compiler backend.  Both hand the caught failure
to `Story.error`, which either re-raises it (debug) or renders a diagnostic
and calls Python's `exit()` — which raises `SystemExit(None)`, ending the
process with status code 0.  The embedding makes the raw-Python effects
explicit: a trace of observable events (which external component was
invoked with what, what was printed) and an outcome that is a normal
return, a raised failure, or a process exit with its status code. -/

/-- Syntax trees as delivered by the Parser adapter.  The core needs only:
inner nodes carry a data tag and children, leaves are tokens carrying a
literal value (lark `Tree` / `Token`). -/
inductive Tree where
  | node : String → List Tree → Tree
  | token : String → Tree

/-- The syntax-failure kinds caught by `Story.parse`. -/
inductive ParseFailure where
  | unexpectedToken : String → ParseFailure
  | unexpectedInput : String → ParseFailure
deriving DecidableEq

/-- The semantic-failure kinds caught by `Story.compile`. -/
inductive CompileFailure where
  | compilerError : String → CompileFailure
  | storySyntaxError : String → CompileFailure
deriving DecidableEq

/-- Every failure value a `Story` method can raise: a caught syntax or
semantic failure re-raised by `Story.error`, or the `AttributeError` from
reading `self.tree` before any parse ever set it. -/
inductive Failure where
  | syntaxF : ParseFailure → Failure
  | semanticF : CompileFailure → Failure
  | attributeMissing : Failure
deriving DecidableEq

/-- The Compiled Artifact is opaque to the core. -/
abbrev Artifact := String

/-- Observable side effects of a `Story` method, in order of occurrence. -/
inductive Event where
  | parserInvoked : String → Event
  | compilerInvoked : Event
  | echoed : Failure → Option String → String → Event
  | printedMissing : String → String → Event
deriving DecidableEq

/-- How a `Story` method call ends: a normal return, an uncaught raised
failure, or process termination with the given exit status. -/
inductive PyResult (α : Type) where
  | ok : α → PyResult α
  | raised : Failure → PyResult α
  | exited : Nat → PyResult α
deriving DecidableEq

/-- Embeds the `Story` object: `self.story` and `self.path` from
`__init__`, plus the `self.tree` / `self.compiled` attributes, absent
(`none`) until the corresponding method first assigns them. -/
structure Story where
  story : String
  path : Option String := none
  tree : Option Tree := none
  compiled : Option Artifact := none

/-- Embeds `Story.error`: in debug mode re-raise the original failure;
otherwise echo a `StoryError(error, self.path, self.story)` diagnostic and
call `exit()`, i.e. terminate the process with status 0. -/
def Story.error (st : Story) (e : Failure) (debug : Bool) :
    List Event × PyResult Unit :=
  if debug then ([], .raised e)
  else ([.echoed e st.path st.story], .exited 0)

/-- Embeds `Story.parse`: invoke the Parser adapter (`Parser(ebnf).parse`,
abstracted as `parserFn`) on `self.story`; on success assign `self.tree`;
on a caught syntax failure hand it to `Story.error`, leaving `self.tree`
untouched. -/
def Story.parse (st : Story) (parserFn : String → Except ParseFailure Tree)
    (debug : Bool) : List Event × Story × PyResult Unit :=
  match parserFn st.story with
  | .ok t => ([.parserInvoked st.story], { st with tree := some t }, .ok ())
  | .error e =>
    let (ev, r) := st.error (.syntaxF e) debug
    (.parserInvoked st.story :: ev, st, r)

/-- Embeds `Story.compile`: read `self.tree` (an `AttributeError` if it was
never assigned), invoke the Compiler backend on it; on success assign
`self.compiled`; on a caught semantic failure hand it to `Story.error`. -/
def Story.compile (st : Story)
    (compilerFn : Tree → Except CompileFailure Artifact) (debug : Bool) :
    List Event × Story × PyResult Unit :=
  match st.tree with
  | none => ([], st, .raised .attributeMissing)
  | some t =>
    match compilerFn t with
    | .ok a => ([.compilerInvoked], { st with compiled := some a }, .ok ())
    | .error e =>
      let (ev, r) := st.error (.semanticF e) debug
      (.compilerInvoked :: ev, st, r)

/-- Embeds `Story.process`: `self.parse(...)`, then `self.compile(...)`,
then `return self.compiled`; a raise or an exit inside a step aborts the
rest of the method body. -/
def Story.process (st : Story) (parserFn : String → Except ParseFailure Tree)
    (compilerFn : Tree → Except CompileFailure Artifact) (debug : Bool) :
    List Event × Story × PyResult (Option Artifact) :=
  let (ev1, st1, r1) := st.parse parserFn debug
  match r1 with
  | .ok _ =>
    let (ev2, st2, r2) := st1.compile compilerFn debug
    match r2 with
    | .ok _ => (ev1 ++ ev2, st2, .ok st2.compiled)
    | .raised e => (ev1 ++ ev2, st2, .raised e)
    | .exited n => (ev1 ++ ev2, st2, .exited n)
  | .raised e => (ev1, st1, .raised e)
  | .exited n => (ev1, st1, .exited n)

/-- How `Story.read` ends: the cleaned file contents, or process
termination. -/
inductive ReadResult where
  | ok : String → ReadResult
  | exited : Nat → ReadResult
deriving DecidableEq

/-- Embeds `Story.read`: open and read the file (the file system is
abstracted as `fs`, `os.path.abspath` as `abspath`), returning the cleaned
contents; on `FileNotFoundError` print the not-found message naming the
path and its resolved absolute path and call `exit()` (status 0). -/
def Story.read (fs : String → Option String) (abspath : String → String)
    (path : String) : List Event × ReadResult :=
  match fs path with
  | some contents => ([], .ok (Story.clean_source contents))
  | none => ([.printedMissing path (abspath path)], .exited 0)

/-- Embeds `Story.from_file`: `Story(cls.read(path), path=path)`; when
`read` terminates the process, no story is ever constructed. -/
def Story.from_file (fs : String → Option String)
    (abspath : String → String) (path : String) :
    List Event × Option Story :=
  match Story.read fs abspath path with
  | (ev, .ok text) => (ev, some { story := text, path := some path })
  | (ev, .exited _) => (ev, none)

/-- Embeds `Story.from_stream`: `Story(stream.read())` — the stream
contents are stored as given, with no path and no cleaning. -/
def Story.from_stream (stream : String) : Story :=
  { story := stream }

/-! ## Line-indexed view: `Story.line` and `Story.slice`

Both views are `self.story.splitlines(keepends=False)`, then a Python
single-element index (negative indices count from the end, out-of-range
raises `IndexError`, modelled by `none`) or a Python slice (indices clamped
into range, never failing). -/

/-- The line-break characters recognised by Python's `str.splitlines`. -/
def isLineBreak (c : Char) : Bool :=
  c == '\n' || c == '\r' || c == '\x0b' || c == '\x0c' || c == '\x1c'
    || c == '\x1d' || c == '\x1e' || c == '\x85' || c == '\u2028'
    || c == '\u2029'

/-- Accumulator-based splitter behind `pySplitlines`; `acc` is the current
line, reversed.  A final line not ended by a break is still produced, but a
trailing break produces no empty final line, as in Python. -/
def splitlinesGo : List Char → List Char → List String
  | acc, [] => if acc.isEmpty then [] else [String.mk acc.reverse]
  | acc, '\r' :: '\n' :: t => String.mk acc.reverse :: splitlinesGo [] t
  | acc, c :: t =>
    if isLineBreak c then String.mk acc.reverse :: splitlinesGo [] t
    else splitlinesGo (c :: acc) t

/-- Embeds `str.splitlines(keepends=False)`. -/
def pySplitlines (s : String) : List String :=
  splitlinesGo [] s.data

example : pySplitlines "a\nb\nc" = ["a", "b", "c"] := by decide
example : pySplitlines "a\nb\n" = ["a", "b"] := by decide
example : pySplitlines "" = [] := by decide
example : pySplitlines "a\r\nb\n\n" = ["a", "b", ""] := by decide

/-- Python single-element list indexing `l[n]`: negative indices count from
the end; `none` models the `IndexError` raised out of range. -/
def pyIndex (l : List String) (n : Int) : Option String :=
  let i : Int := if n < 0 then n + l.length else n
  if 0 ≤ i ∧ i < l.length then l[i.toNat]? else none

/-- Python's clamping of one slice bound into `[0, len]`. -/
def pySliceIdx (len : Nat) (n : Int) : Nat :=
  if n < 0 then (n + len).toNat else min n.toNat len

/-- Python list slicing `l[start:stop]` (unit step): bounds clamped, empty
when crossed, never failing. -/
def pySlice (l : List String) (start stop : Int) : List String :=
  (l.take (pySliceIdx l.length stop)).drop (pySliceIdx l.length start)

/-- Embeds `Story.line`:
`self.story.splitlines(keepends=False)[line]`. -/
def Story.line (st : Story) (n : Int) : Option String :=
  pyIndex (pySplitlines st.story) n

/-- Embeds `Story.slice`:
`self.story.splitlines(keepends=False)[start:end]`. -/
def Story.slice (st : Story) (start stop : Int) : List String :=
  pySlice (pySplitlines st.story) start stop

example : (Story.from_stream "a\nb\nc").line 0 = some "a" := by decide
example : (Story.from_stream "a\nb\nc").line (-1) = some "c" := by decide
example : (Story.from_stream "a\nb\nc").line 3 = none := by decide
example : (Story.from_stream "a\nb\nc").slice 1 3 = ["b", "c"] := by decide
example : (Story.from_stream "a\nb\nc").slice (-2) 100 = ["b", "c"] := by
  decide
example : (Story.from_stream "a\nb\nc").slice 2 1 = [] := by decide

/-! ## ModuleResolver: `Story.modules`

`modules` iterates `self.tree.find_data('imports')` and for each matched
node evaluates `module.string.child(0).value[1:-1]`, appending `'.story'`
when the result does not already end with it.  The tree capability
(`find_data`, the `.string` attribute, `child`, `.value`) lives in the
Parser adapter's `Tree` class, outside this file's source. -/

mutual

/-- Modelled from the spec: the Tree capability `find_data(tag)` of the
Parser adapter's tree class is not part of the source at hand; the spec
asks for all nodes carrying the given tag, in tree-traversal order (here:
preorder, the order being otherwise unspecified). -/
def Tree.find_data (tag : String) : Tree → List Tree
  | .token _ => []
  | .node d cs =>
    (if d == tag then [Tree.node d cs] else []) ++ Tree.findDataList tag cs

/-- Preorder collection of tagged nodes over a forest, for
`Tree.find_data`. -/
def Tree.findDataList (tag : String) : List Tree → List Tree
  | [] => []
  | c :: cs => Tree.find_data tag c ++ Tree.findDataList tag cs

end

/-- Modelled from the spec: the `.string` attribute access on a tree node
(absent from the source at hand) descends to the node's nested string
child — the first direct child subtree tagged `string` — and yields nothing
when no such child exists. -/
def Tree.stringChild : Tree → Option Tree
  | .token _ => none
  | .node _ cs =>
    cs.find? fun c =>
      match c with
      | .node d _ => d == "string"
      | .token _ => false

/-- Modelled from the spec: the Tree capability `child(i)` reads a node's
nth child; reading child 0 of a childless node or of a token fails (an
index/attribute crash in the adapter's representation). -/
def Tree.child0 : Tree → Option Tree
  | .token _ => none
  | .node _ cs => cs.head?

/-- Modelled from the spec: the Tree capability `value` reads a token's
literal value; inner nodes carry none. -/
def Tree.value : Tree → Option String
  | .token v => some v
  | .node _ _ => none

deriving instance DecidableEq for Except

/-- The ways `Story.modules` can crash on an unexpectedly shaped node:
an attribute access on a missing value (`.child` on the absent string
child, or `.value` on a non-token) or an index access past the children. -/
inductive ResolveCrash where
  | attributeError : ResolveCrash
  | indexError : ResolveCrash
deriving DecidableEq

/-- Embeds `str.endswith` via the character lists. -/
def pyEndswith (s suffix : String) : Bool :=
  suffix.data.isSuffixOf s.data

/-- Embeds the body of the `modules` loop for one matched node:
`path = module.string.child(0).value[1:-1]`, then append `'.story'` unless
`path` already ends with it. -/
def resolveImport (m : Tree) : Except ResolveCrash String :=
  match m.stringChild with
  | none => .error .attributeError
  | some s =>
    match s.child0 with
    | none => .error .indexError
    | some c =>
      match c.value with
      | none => .error .attributeError
      | some v =>
        let path := String.mk ((v.data.drop 1).dropLast)
        if pyEndswith path ".story" then .ok path
        else .ok (path ++ ".story")

/-- The `for module in ...` loop of `Story.modules`: resolve each matched
node in order and append its path; the first unexpectedly shaped node
crashes the whole resolution. -/
def modulesGo : List Tree → Except ResolveCrash (List String)
  | [] => .ok []
  | m :: ms =>
    match resolveImport m with
    | .error c => .error c
    | .ok p =>
      match modulesGo ms with
      | .error c => .error c
      | .ok ps => .ok (p :: ps)

/-- Embeds `Story.modules`: walk `self.tree.find_data('imports')` in order,
resolving each matched node and collecting the paths. -/
def Story.modules (st : Story) : Except ResolveCrash (List String) :=
  match st.tree with
  | none => .error .attributeError
  | some tree => modulesGo (tree.find_data "imports")

/-! ## Claims about the orchestration -/

/-- C2 counterexample: a story built from a stream keeps its raw text, and
`parse` hands exactly that raw text to the Parser adapter even though its
comment-stripped form differs: the parser does not always receive the
cleaned text. -/
theorem parse_input_counterexample :
    ((Story.from_stream "a #b").parse (fun s => .ok (Tree.token s)) true).1
        = [Event.parserInvoked "a #b"]
      ∧ Story.clean_source "a #b" ≠ "a #b" :=
  ⟨rfl, by decide⟩

/-- C2 amended: `parse` always hands the Parser adapter exactly the stored
story text; comment stripping happens once, inside `read`, so `from_file`
stories carry cleaned text while `from_stream` (and directly constructed)
stories carry their text verbatim, stripped or not. -/
theorem parse_input_amended (st : Story)
    (parserFn : String → Except ParseFailure Tree) (debug : Bool) :
    ((st.parse parserFn debug).1.head? = some (Event.parserInvoked st.story))
      ∧ (∀ (fs : String → Option String) (abspath : String → String)
            (path raw : String), fs path = some raw →
          Story.from_file fs abspath path
            = ([], some { story := Story.clean_source raw,
                          path := some path }))
      ∧ (∀ stream, (Story.from_stream stream).story = stream) := by
  refine ⟨?_, ?_, fun _ => rfl⟩
  · cases hp : parserFn st.story <;> cases debug <;>
      simp [Story.parse, Story.error, hp]
  · intro fs abspath path raw hr
    simp [Story.from_file, Story.read, hr]

/-- Witness for the amended C2 statement at a concrete file system. -/
theorem parse_input_amended_witness :
    Story.from_file (fun _ => some "t #c") (fun p => p) "f.story"
      = ([], some { story := Story.clean_source "t #c",
                    path := some "f.story" }) :=
  (parse_input_amended (Story.from_stream "x")
      (fun s => Except.ok (Tree.token s)) true).2.1
    (fun _ => some "t #c") (fun p => p) "f.story" "t #c" rfl

/-- C3: when the parse step fails with a syntax failure, `process` never
invokes the Compiler backend and stores no compiled artifact, in debug and
non-debug mode alike. -/
theorem process_skips_compile_on_parse_failure (st : Story)
    (parserFn : String → Except ParseFailure Tree)
    (compilerFn : Tree → Except CompileFailure Artifact) (debug : Bool)
    (e : ParseFailure) (hp : parserFn st.story = .error e)
    (hc : st.compiled = none) :
    Event.compilerInvoked ∉ (st.process parserFn compilerFn debug).1
      ∧ (st.process parserFn compilerFn debug).2.1.compiled = none := by
  cases debug <;>
    simp [Story.process, Story.parse, Story.error, hp, hc]

/-- Witness for C3 at a concrete failing parser, non-debug mode. -/
theorem process_skips_compile_on_parse_failure_witness :
    Event.compilerInvoked
        ∉ ((Story.from_stream "a").process
            (fun _ => Except.error (ParseFailure.unexpectedToken "t"))
            (fun _ => Except.ok "out") false).1
      ∧ ((Story.from_stream "a").process
          (fun _ => Except.error (ParseFailure.unexpectedToken "t"))
          (fun _ => Except.ok "out") false).2.1.compiled = none :=
  process_skips_compile_on_parse_failure (Story.from_stream "a")
    (fun _ => Except.error (ParseFailure.unexpectedToken "t"))
    (fun _ => Except.ok "out") false (ParseFailure.unexpectedToken "t")
    rfl rfl

/-- C4: in debug mode a syntax failure during `process` is re-raised to the
caller as the original failure value; nothing is echoed, the process does
not exit, and the story is left untouched. -/
theorem process_debug_reraises (st : Story)
    (parserFn : String → Except ParseFailure Tree)
    (compilerFn : Tree → Except CompileFailure Artifact)
    (e : ParseFailure) (hp : parserFn st.story = .error e) :
    st.process parserFn compilerFn true
      = ([Event.parserInvoked st.story], st,
         .raised (.syntaxF e)) := by
  simp [Story.process, Story.parse, Story.error, hp]

/-- Witness for C4 at a concrete failing parser. -/
theorem process_debug_reraises_witness :
    (Story.from_stream "a").process
        (fun _ => Except.error (ParseFailure.unexpectedInput "u"))
        (fun _ => Except.ok "out") true
      = ([Event.parserInvoked "a"], Story.from_stream "a",
         PyResult.raised (Failure.syntaxF (ParseFailure.unexpectedInput "u"))) :=
  process_debug_reraises (Story.from_stream "a")
    (fun _ => Except.error (ParseFailure.unexpectedInput "u"))
    (fun _ => Except.ok "out") (ParseFailure.unexpectedInput "u") rfl

/-- C5 counterexample: both fatal paths end the process via Python's bare
`exit()`, whose status is 0 — not the non-zero outcome the claim states. -/
theorem fatal_exit_zero_counterexample :
    ((Story.from_stream "a").process
        (fun _ => Except.error (ParseFailure.unexpectedToken "t"))
        (fun _ => Except.ok "out") false).2.2 = PyResult.exited 0
      ∧ (Story.read (fun _ => none) (fun p => String.append "/abs/" p)
          "m.story").2 = ReadResult.exited 0 :=
  ⟨rfl, rfl⟩

/-- C5 amended: under the non-debug policy every fatal path — a syntax
failure, a semantic failure, and the missing-source-file path in `read` —
renders its diagnostic (echoed, or the printed not-found message naming the
resolved absolute path) and then ends the process, but with exit status 0,
Python's default for a bare `exit()`, rather than a non-zero code. -/
theorem fatal_paths_exit_amended (st : Story)
    (parserFn : String → Except ParseFailure Tree)
    (compilerFn : Tree → Except CompileFailure Artifact)
    (e : ParseFailure) (hp : parserFn st.story = .error e) :
    ((st.process parserFn compilerFn false).2.2 = PyResult.exited 0
        ∧ Event.echoed (.syntaxF e) st.path st.story
            ∈ (st.process parserFn compilerFn false).1)
      ∧ (∀ (st' : Story) (tree : Tree) (ce : CompileFailure),
          st'.tree = some tree → compilerFn tree = .error ce →
            (st'.compile compilerFn false).2.2 = PyResult.exited 0
              ∧ Event.echoed (.semanticF ce) st'.path st'.story
                  ∈ (st'.compile compilerFn false).1)
      ∧ (∀ (fs : String → Option String) (abspath : String → String)
            (path : String), fs path = none →
          Story.read fs abspath path
            = ([Event.printedMissing path (abspath path)],
               ReadResult.exited 0)) := by
  refine ⟨⟨?_, ?_⟩, ?_, ?_⟩
  · simp [Story.process, Story.parse, Story.error, hp]
  · simp [Story.process, Story.parse, Story.error, hp]
  · intro st' tree ce htree hce
    simp [Story.compile, Story.error, htree, hce]
  · intro fs abspath path hfs
    simp [Story.read, hfs]

/-- Witness for the amended C5 statement at a concrete failing parser. -/
theorem fatal_paths_exit_amended_witness :
    ((Story.from_stream "a").process
        (fun _ => Except.error (ParseFailure.unexpectedToken "t"))
        (fun _ => Except.ok "out") false).2.2 = PyResult.exited 0
      ∧ Event.echoed (.syntaxF (ParseFailure.unexpectedToken "t")) none "a"
          ∈ ((Story.from_stream "a").process
              (fun _ => Except.error (ParseFailure.unexpectedToken "t"))
              (fun _ => Except.ok "out") false).1 :=
  (fatal_paths_exit_amended (Story.from_stream "a")
      (fun _ => Except.error (ParseFailure.unexpectedToken "t"))
      (fun _ => Except.ok "out") (ParseFailure.unexpectedToken "t") rfl).1

/-- C9 counterexample: a story holding the tree of an earlier successful
parse is re-parsed with a failing parser in debug mode; the stale tree is
still stored (and hence observable) afterwards. -/
theorem stale_tree_counterexample :
    (({ story := "new", tree := some (Tree.token "old") } : Story).parse
        (fun _ => Except.error (ParseFailure.unexpectedInput "u"))
        true).2.1.tree
      = some (Tree.token "old") := rfl

/-- C9 amended: `parse` replaces the stored tree only when the fresh parse
succeeds; when it fails, the assignment never runs and the previous tree
remains stored — observable by the caller in debug mode, the process having
exited (status 0) in non-debug mode. -/
theorem parse_tree_update_amended (st : Story)
    (parserFn : String → Except ParseFailure Tree) (debug : Bool) :
    (∀ t, parserFn st.story = .ok t →
        (st.parse parserFn debug).2.1.tree = some t)
      ∧ (∀ e, parserFn st.story = .error e →
          (st.parse parserFn debug).2.1.tree = st.tree
            ∧ (debug = false →
                (st.parse parserFn debug).2.2 = PyResult.exited 0)
            ∧ (debug = true →
                (st.parse parserFn debug).2.2
                  = PyResult.raised (.syntaxF e))) := by
  constructor
  · intro t hp
    simp [Story.parse, hp]
  · intro e hp
    refine ⟨?_, ?_, ?_⟩ <;> cases debug <;>
      simp [Story.parse, Story.error, hp]

/-- Witness for the amended C9 statement: a successful re-parse replaces
the stale tree. -/
theorem parse_tree_update_amended_witness :
    (({ story := "new", tree := some (Tree.token "old") } : Story).parse
        (fun _ => Except.ok (Tree.token "fresh")) false).2.1.tree
      = some (Tree.token "fresh") :=
  (parse_tree_update_amended
      { story := "new", tree := some (Tree.token "old") }
      (fun _ => Except.ok (Tree.token "fresh")) false).1
    (Tree.token "fresh") rfl

/-! ## Claims about the module resolver -/

/-- When every matched node resolves, the `modules` loop collects the
in-order map of the per-node resolution. -/
lemma modulesGo_eq_map (f : Tree → String) :
    ∀ (l : List Tree), (∀ m ∈ l, resolveImport m = .ok (f m)) →
      modulesGo l = .ok (l.map f)
  | [], _ => rfl
  | m :: ms, h => by
    have hm := h m (List.mem_cons_self m ms)
    have hms := modulesGo_eq_map f ms fun x hx => h x (List.mem_cons_of_mem _ hx)
    simp [modulesGo, hm, hms]

/-- C7: `modules` strips the quote delimiters — exactly the first and last
character — of each import literal, appends `.story` exactly when the
remainder does not already end with it, and collects the resolved paths
over the `imports`-tagged nodes in traversal order, duplicates preserved:
the result is the in-order map of the per-node resolution, a well-shaped
node resolves to the strip-then-suffix normalisation of its literal, and
the raw literal `"a/b"` resolves to `a/b.story` while `"a/b.story"` is not
double-suffixed. -/
theorem modules_normalization (st : Story) (tree : Tree) (f : Tree → String)
    (htree : st.tree = some tree)
    (hres : ∀ m ∈ tree.find_data "imports", resolveImport m = .ok (f m)) :
    st.modules = .ok ((tree.find_data "imports").map f)
      ∧ (∀ (d v : String) (more rest : List Tree),
          resolveImport
              (Tree.node d
                (Tree.node "string" (Tree.token v :: more) :: rest))
            = .ok (if pyEndswith (String.mk ((v.data.drop 1).dropLast))
                        ".story" then
                     String.mk ((v.data.drop 1).dropLast)
                   else String.mk ((v.data.drop 1).dropLast) ++ ".story"))
      ∧ resolveImport
            (Tree.node "imports" [Tree.node "string" [Tree.token "\"a/b\""]])
          = .ok "a/b.story"
      ∧ resolveImport
            (Tree.node "imports"
              [Tree.node "string" [Tree.token "\"a/b.story\""]])
          = .ok "a/b.story" := by
  refine ⟨?_, ?_, rfl, rfl⟩
  · simp [Story.modules, htree, modulesGo_eq_map f _ hres]
  · intro d v more rest
    have hsc : Tree.stringChild
        (Tree.node d (Tree.node "string" (Tree.token v :: more) :: rest))
        = some (Tree.node "string" (Tree.token v :: more)) := rfl
    simp only [resolveImport, hsc, Tree.child0, Tree.value, List.head?]
    split <;> simp_all

/-- The tree of the C7 witness: two identical `imports` nodes around an
unrelated node, exercising order and duplicate preservation. -/
def treeW : Tree :=
  Tree.node "start"
    [Tree.node "imports" [Tree.node "string" [Tree.token "\"a/b\""]],
     Tree.node "rules" [],
     Tree.node "imports" [Tree.node "string" [Tree.token "\"a/b\""]]]

/-- Witness for C7 at a concrete tree with a duplicated import. -/
theorem modules_normalization_witness :
    ({ story := "", tree := some treeW } : Story).modules
      = Except.ok ["a/b.story", "a/b.story"] :=
  ((modules_normalization { story := "", tree := some treeW } treeW
      (fun _ => "a/b.story") rfl (by decide)).1).trans (by decide)

/-- C8 counterexample: on an `imports` node lacking the nested string
shape, `modules` fails with the bare attribute-access crash of
`module.string.child(0)` — no `MalformedImport` error exists anywhere in
the resolution path and nothing identifies the offending node. -/
theorem malformed_import_counterexample :
    ({ story := "",
       tree := some (Tree.node "start"
         [Tree.node "imports" [Tree.token "x"]]) } : Story).modules
      = Except.error ResolveCrash.attributeError := rfl

/-- C8 amended: a matched node without the expected nested string shape
does make resolution fail, but with an unchecked attribute-access crash
carrying no node identity, not with an explicit `MalformedImport`
diagnostic; `modules` propagates the crash of a malformed leading node. -/
theorem malformed_import_amended (d : String) (cs : List Tree)
    (hshape : (Tree.node d cs).stringChild = none) :
    resolveImport (Tree.node d cs) = .error .attributeError
      ∧ (∀ (st : Story) (tree : Tree) (ms : List Tree),
          st.tree = some tree →
          tree.find_data "imports" = Tree.node d cs :: ms →
          st.modules = .error .attributeError) := by
  have h1 : resolveImport (Tree.node d cs) = .error .attributeError := by
    simp [resolveImport, hshape]
  refine ⟨h1, ?_⟩
  intro st tree ms htree hfd
  simp [Story.modules, htree, hfd, modulesGo, h1]

/-- Witness for the amended C8 statement at a concrete malformed node. -/
theorem malformed_import_amended_witness :
    resolveImport (Tree.node "imports" [Tree.token "x"])
      = Except.error ResolveCrash.attributeError :=
  (malformed_import_amended "imports" [Tree.token "x"] rfl).1

/-! ## Claims about the line-indexed view -/

/-- Python indexing fails at or past the length. -/
lemma pyIndex_none_of_ge (l : List String) (n : Int)
    (h : (l.length : Int) ≤ n) : pyIndex l n = none := by
  unfold pyIndex
  have h0 : ¬ n < 0 := by omega
  simp only [if_neg h0]
  exact if_neg (by omega)

/-- Python indexing fails below the negated length. -/
lemma pyIndex_none_of_lt (l : List String) (n : Int)
    (h : n < -(l.length : Int)) : pyIndex l n = none := by
  unfold pyIndex
  have h0 : n < 0 := by omega
  simp only [if_pos h0]
  exact if_neg (by omega)

/-- In-range negative Python indexing counts from the end and succeeds. -/
lemma pyIndex_neg (l : List String) (n : Int)
    (h1 : -(l.length : Int) ≤ n) (h2 : n < 0) :
    pyIndex l n = l[(n + l.length).toNat]? ∧ pyIndex l n ≠ none := by
  unfold pyIndex
  simp only [if_pos h2]
  rw [if_pos (⟨by omega, by omega⟩ :
    (0 : Int) ≤ n + l.length ∧ n + l.length < l.length)]
  refine ⟨rfl, ?_⟩
  rw [Ne, List.getElem?_eq_none_iff]
  omega

/-- In-range non-negative Python indexing is plain indexing and
succeeds. -/
lemma pyIndex_nonneg (l : List String) (n : Int)
    (h1 : 0 ≤ n) (h2 : n < (l.length : Int)) :
    pyIndex l n = l[n.toNat]? ∧ pyIndex l n ≠ none := by
  unfold pyIndex
  have h0 : ¬ n < 0 := by omega
  simp only [if_neg h0]
  rw [if_pos (⟨h1, h2⟩ : (0 : Int) ≤ n ∧ n < l.length)]
  refine ⟨rfl, ?_⟩
  rw [Ne, List.getElem?_eq_none_iff]
  omega

/-- C10 counterexample: `line` does not accept every negative index — on
the three-line document `"a\nb\nc"` the index `-5` lies below the negated
line count and fails (an `IndexError`), instead of returning a line counted
from the end. -/
theorem line_negative_counterexample :
    (Story.from_stream "a\nb\nc").line (-5) = none ∧ (-5 : Int) < 0 :=
  ⟨by decide, by decide⟩

/-- C10 amended: `slice` is total over the line-indexed view — any integer
bounds, out-of-range or crossed included, give a possibly empty, possibly
truncated sub-selection of the lines and never fail — while `line n` fails
both when `n` is at or past the line count and when `n` is below the
negated line count, returning lines counted from the end for in-range
negative `n`. -/
theorem line_slice_amended (st : Story) :
    (∀ a b : Int, List.Sublist (st.slice a b) (pySplitlines st.story)
        ∧ (st.slice a b).length ≤ (pySplitlines st.story).length)
      ∧ (∀ n : Int, ((pySplitlines st.story).length : Int) ≤ n →
          st.line n = none)
      ∧ (∀ n : Int, n < -((pySplitlines st.story).length : Int) →
          st.line n = none)
      ∧ (∀ n : Int, -((pySplitlines st.story).length : Int) ≤ n → n < 0 →
          st.line n
              = (pySplitlines st.story)[(n + (pySplitlines st.story).length).toNat]?
            ∧ st.line n ≠ none)
      ∧ (∀ n : Int, 0 ≤ n → n < ((pySplitlines st.story).length : Int) →
          st.line n = (pySplitlines st.story)[n.toNat]?
            ∧ st.line n ≠ none) := by
  refine ⟨?_, ?_, ?_, ?_, ?_⟩
  · intro a b
    have hs : List.Sublist (st.slice a b) (pySplitlines st.story) :=
      (List.drop_sublist _ _).trans (List.take_sublist _ _)
    exact ⟨hs, hs.length_le⟩
  · exact fun n h => pyIndex_none_of_ge _ n h
  · exact fun n h => pyIndex_none_of_lt _ n h
  · exact fun n h1 h2 => pyIndex_neg _ n h1 h2
  · exact fun n h1 h2 => pyIndex_nonneg _ n h1 h2

/-- Witness for the amended C10 statement: `line (-1)` on `"a\nb\nc"` is
the last line. -/
theorem line_slice_amended_witness :
    (Story.from_stream "a\nb\nc").line (-1)
        = (pySplitlines (Story.from_stream "a\nb\nc").story)[((-1 : Int)
            + (pySplitlines (Story.from_stream "a\nb\nc").story).length).toNat]?
      ∧ (Story.from_stream "a\nb\nc").line (-1) ≠ none :=
  (line_slice_amended (Story.from_stream "a\nb\nc")).2.2.2.1 (-1)
    (by decide) (by decide)

end Storyscript
